import Mathlib

/- A shallow embedding of src/Utilities/build-script-helper.py.

   Strings model Python strings; `Option String` models values that may be
   Python `None` (argparse defaults).  Elements of subprocess argument lists
   are `Option String` because the script appends `args.cross_compile_config`
   (which can be `None`) to an argument list.  Effects are modelled by
   explicit state passing: `St` carries the argparse namespace (the script
   mutates it in place) and a trace of observable events (subprocess spawns,
   stdout prints, directory removals).  A `PyErr` result models an abnormal
   exit: `systemExit msg` is `fatal_error` (prints `msg` to stderr and exits
   with status 1), `calledProcessError cmd` is a non-zero subprocess exit
   propagating out of `subprocess.check_call` / `check_output`, and
   `typeError` is the `TypeError` raised when an argument list given to
   `subprocess` (or to `escapeCmdArg`) contains `None`; all three terminate
   the process with a non-zero status.  -/

namespace BSH

/-- Python `str.startswith('/')`, used by `os.path` for absoluteness. -/
def isAbs (s : String) : Bool :=
  match s.data with
  | [] => false
  | c :: _ => c == '/'

/-- Python `str.endswith('/')`. -/
def endsSlash (s : String) : Bool :=
  match s.data.getLast? with
  | some c => c == '/'
  | none => false

/-- Python `os.path.join` (posix flavour) on two components. -/
def os_path_join (a b : String) : String :=
  if isAbs b then b
  else if a = "" ∨ endsSlash a then a ++ b
  else a ++ "/" ++ b

/-- Python `str.startswith(pat)`; also models `re.match(pat, s)` for a
    pattern with no special regex characters, as in
    `re.match('android-', args.cross_compile_host)`. -/
def strStarts (pat s : String) : Bool :=
  pat.data.isPrefixOf s.data

/-- The groups of characters between `/` separators, innermost helper of
    `splitSlash`. -/
def splitSlashAux : List Char → List (List Char)
  | [] => [[]]
  | c :: rest =>
    match splitSlashAux rest with
    | [] => [[c]]
    | g :: gs => if c = '/' then [] :: g :: gs else (c :: g) :: gs

/-- Python `str.split('/')`. -/
def splitSlash (s : String) : List String :=
  (splitSlashAux s.data).map String.mk

/-- Python `'/'.join(parts)`. -/
def joinSlash : List String → String
  | [] => ""
  | [x] => x
  | x :: xs => x ++ "/" ++ joinSlash xs

/-- One step of Python `posixpath.normpath`'s component normalisation. -/
def normStep (absolute : Bool) (acc : List String) (c : String) : List String :=
  if c = "" ∨ c = "." then acc
  else if c ≠ ".." ∨ (¬ absolute ∧ acc = []) ∨ acc.getLast? = some ".." then acc ++ [c]
  else acc.dropLast

/-- Python `posixpath.normpath` (ignoring the exactly-two-leading-slashes
    POSIX corner case, which no claim touches). -/
def normpath (p : String) : String :=
  let absolute := isAbs p
  let comps := (splitSlash p).foldl (normStep absolute) []
  let out := joinSlash comps
  if absolute then "/" ++ out
  else if comps = [] then "." else out

/-- Python `os.path.abspath`: `normpath(join(cwd, path))`.  It normalises
    the path textually; it does not consult the file system and in
    particular does not resolve symbolic links. -/
def abspath (cwd p : String) : String :=
  normpath (os_path_join cwd p)

/-- A file system's symbolic-link table: an absolute path, given as its list
    of components, is either a symlink to another absolute component path or
    a regular entry (`none`). -/
def Fs : Type := List String → Option (List String)

/-- Resolve symbolic links component by component (links assumed to point at
    link-free targets, enough for concrete counterexamples). -/
def resolveLinks (fs : Fs) : List String → List String → List String
  | acc, [] => acc
  | acc, c :: rest =>
    match fs (acc ++ [c]) with
    | some target => resolveLinks fs target rest
    | none => resolveLinks fs (acc ++ [c]) rest

/-- Modelled from the spec's words, for comparison with what the code does:
    a path that is "canonicalized (absolute, symlink-resolved)" is made
    absolute and then has its symbolic links resolved against the file
    system.  The source file only calls `os.path.abspath`; this definition
    is the spec side of claim C8. -/
def canonicalize_spec (fs : Fs) (cwd p : String) : String :=
  "/" ++ joinSlash
    (resolveLinks fs [] ((splitSlash (abspath cwd p)).filter (fun c => c ≠ "")))

-- ---------------------------------------------------------------------------
-- Data model

/-- The fields of the JSON object printed by `swift -print-target-info` that
    the script reads (`target.unversionedTriple`, `target.triple`). -/
structure TargetInfo where
  unversionedTriple : String
  triple : String
deriving DecidableEq, Repr

/-- The argparse namespace produced by `parse_args` and mutated by `main`
    and `get_build_target`.  `Option` fields default to `None` in argparse. -/
structure Args where
  action : String
  package_path : String
  toolchain : String
  ninja_bin : Option String
  build_path : String
  configuration : String
  no_local_deps : Bool
  sanitize : Option (List String)
  sanitize_all : Bool
  no_clean : Bool
  verbose : Bool
  cross_compile_host : Option String
  cross_compile_config : Option String
  skip_long_tests : Bool
  install_prefixes : Option (List String)
  target_info : Option TargetInfo
deriving DecidableEq, Repr

/-- The raw command-line values bound by argparse, before the script's own
    validation and path canonicalisation at the end of `parse_args`. -/
structure RawArgs where
  action : String
  package_path : String
  toolchain : String
  ninja_bin : Option String
  build_path : String
  configuration : String
  no_local_deps : Bool
  sanitize : Option (List String)
  sanitize_all : Bool
  no_clean : Bool
  verbose : Bool
  cross_compile_host : Option String
  cross_compile_config : Option String
  skip_long_tests : Bool
  install_prefixes : Option (List String)
deriving Repr

/-- Abnormal process terminations; each exits with a non-zero status. -/
inductive PyErr where
  | systemExit (message : String)
  | calledProcessError (cmd : List (Option String))
  | typeError
deriving DecidableEq, Repr

/-- Observable events of a run, in order. -/
inductive Ev where
  | spawn (cmd : List (Option String))
  | print (line : String)
  | rmtree (path : String)
deriving DecidableEq, BEq, Repr

/-- Mutable run state: the argparse namespace plus the event trace. -/
structure St where
  args : Args
  trace : List Ev
deriving DecidableEq, Repr

/-- The ambient system: platform, environment, and the behaviour of the
    external processes the script shells out to. -/
structure SysEnv where
  system : String
  environ_ANDROID_DATA : Bool
  cwd : String
  environ : List (String × String)
  targetInfo : Option TargetInfo
  targetInfoErr : String
  fails : List (Option String) → Bool
  binPath : String

/-- Python truthiness of an optional list (argparse `append`/`nargs`). -/
def pyTruthy (o : Option (List String)) : Bool :=
  match o with
  | some l => l ≠ []
  | none => false

/-- Python truthiness of an optional string (argparse default `None`). -/
def pyStrTruthy (o : Option String) : Bool :=
  match o with
  | some h => h ≠ ""
  | none => false

/-- Iterating over an optional list, as Python's `for x in args.sanitize`
    guarded by `if args.sanitize:`. -/
def pyList (o : Option (List String)) : List String :=
  o.getD []

-- ---------------------------------------------------------------------------
-- General utilities of the script

/-- Transcribes `escapeCmdArg` from the source. -/
def escapeCmdArg (arg : String) : String :=
  if arg.contains '"' ∨ arg.contains ' ' then
    "\"" ++ arg.replace "\"" "\\\"" ++ "\""
  else arg

/-- Transcribes `check_call`: optionally echoes the command, then runs it and raises on
    a non-zero exit.  A `None` in the argument list raises `TypeError`
    (inside `escapeCmdArg` when verbose, inside `subprocess` otherwise)
    before any process is spawned. -/
def check_call (env : SysEnv) (verbose : Bool) (cmd : List (Option String)) (s : St) :
    Except PyErr Unit × St :=
  if none ∈ cmd then (.error .typeError, s)
  else
    let s :=
      if verbose then
        { s with trace := s.trace ++
            [.print (String.intercalate " " ((cmd.filterMap (fun x => x)).map escapeCmdArg))] }
      else s
    let s := { s with trace := s.trace ++ [.spawn cmd] }
    if env.fails cmd then (.error (.calledProcessError cmd), s) else (.ok (), s)

/-- Transcribes `swiftpm_bin_path`: `swift build --show-bin-path`, capturing stdout.
    Both call sites leave `verbose` at its default `False`, so no echo. -/
def swiftpm_bin_path (env : SysEnv) (swift_exec : String) (swiftpm_args : List (Option String))
    (s : St) : Except PyErr String × St :=
  let cmd := [some swift_exec, some "build", some "--show-bin-path"] ++ swiftpm_args
  if none ∈ cmd then (.error .typeError, s)
  else
    let s := { s with trace := s.trace ++ [.spawn cmd] }
    if env.fails cmd then (.error (.calledProcessError cmd), s) else (.ok env.binPath, s)

/-- The `swift -print-target-info` command line. -/
def tiCmd (swift_exec : String) : List (Option String) :=
  [some swift_exec, some "-print-target-info"]

/-- Transcribes `get_build_target`: runs `swift -print-target-info`, stores the parsed
    JSON on `args.target_info`, and returns the (on Darwin: unversioned)
    triple.  `env.targetInfo = none` models the `except` path (the
    subprocess or the JSON parse failed): on Darwin a hardcoded fallback
    triple is returned, elsewhere `fatal_error(str(e))` fires. -/
def get_build_target (env : SysEnv) (swift_exec : String) (s : St) :
    Except PyErr String × St :=
  let s := { s with trace := s.trace ++ [.spawn (tiCmd swift_exec)] }
  match env.targetInfo with
  | some ti =>
    let s := { s with args := { s.args with target_info := some ti } }
    if env.system = "Darwin" then (.ok ti.unversionedTriple, s) else (.ok ti.triple, s)
  | none =>
    if env.system = "Darwin" then (.ok "x86_64-apple-macosx", s)
    else (.error (.systemExit env.targetInfoErr), s)

-- ---------------------------------------------------------------------------
-- Option and environment assembly

/-- Transcribes `get_swiftpm_options`, branch by branch from the source. -/
def get_swiftpm_options (env : SysEnv) (swift_exec : String) (s : St) :
    Except PyErr (List (Option String)) × St :=
  let args := s.args
  let swiftpm_args : List (Option String) :=
    [some "--package-path", some args.package_path,
     some "--build-path", some args.build_path,
     some "--configuration", some args.configuration]
  let swiftpm_args := swiftpm_args ++ (if args.verbose then [some "--verbose"] else [])
  let swiftpm_args := swiftpm_args ++
    (pyList args.sanitize).map (fun san => some ("--sanitize=" ++ san))
  let swiftpm_args := swiftpm_args ++
    (if env.system = "Darwin" then
      [some "-Xlinker", some "-rpath", some "-Xlinker",
       some "@executable_path/../lib/swift/macosx"]
    else
      [some "-Xcxx", some "-I", some "-Xcxx",
       some (os_path_join (os_path_join args.toolchain "lib") "swift"),
       some "-Xcxx", some "-I", some "-Xcxx",
       some (os_path_join (os_path_join (os_path_join args.toolchain "lib") "swift") "Block")])
  let swiftpm_args := swiftpm_args ++
    (if env.environ_ANDROID_DATA ∨
        (pyStrTruthy args.cross_compile_host ∧
         strStarts "android-" (args.cross_compile_host.getD "")) then
      [some "-Xlinker", some "-rpath", some "-Xlinker", some "$ORIGIN/../lib/swift/android",
       some "-Xswiftc", some "-Xcc", some "-Xswiftc", some "-U_GNU_SOURCE"]
    else if env.system = "Linux" then
      [some "-Xlinker", some "-rpath", some "-Xlinker", some "$ORIGIN/../lib/swift/linux"]
    else [])
  match get_build_target env swift_exec s with
  | (.error e, s1) => (.error e, s1)
  | (.ok build_target, s1) =>
    match s1.args.cross_compile_host with
    | none => (.ok swiftpm_args, s1)
    | some h =>
      if h = "" then (.ok swiftpm_args, s1)
      else if build_target = "x86_64-apple-macosx" ∧ h = "macosx-arm64" then
        (.ok (swiftpm_args ++ [some "--arch", some "x86_64", some "--arch", some "arm64"]), s1)
      else if strStarts "android-" h then
        let s2 := { s1 with trace := s1.trace ++ [.print ("Cross-compiling for " ++ h)] }
        (.ok (swiftpm_args ++ [some "--destination", s1.args.cross_compile_config]), s2)
      else
        (.error (.systemExit ("cannot cross-compile for " ++ h)), s1)

/-- Dictionary update `env[k] = v`. -/
def envSet (e : List (String × String)) (k v : String) : List (String × String) :=
  (e.filter (fun kv => kv.1 ≠ k)) ++ [(k, v)]

/-- Transcribes `get_swiftpm_environment_variables`: pure in the argparse namespace. -/
def get_swiftpm_environment_variables (env : SysEnv) (swift_exec : String) (args : Args) :
    List (String × String) :=
  let e := env.environ
  let e := envSet e "SOURCEKIT_TOOLCHAIN_PATH" args.toolchain
  let e := envSet e "INDEXSTOREDB_TOOLCHAIN_BIN_PATH" args.toolchain
  let e := if ¬ args.no_local_deps then envSet e "SWIFTCI_USE_LOCAL_DEPS" "1" else e
  let e :=
    match args.ninja_bin with
    | some nb => if nb ≠ "" then envSet e "NINJA_BIN" nb else e
    | none => e
  let e := if (pyList args.sanitize).contains "address" then
      envSet e "ASAN_OPTIONS" "detect_leaks=false" else e
  let e := if (pyList args.sanitize).contains "undefined" then
      envSet e "UBSAN_OPTIONS" ("halt_on_error=true,suppressions=" ++
        os_path_join (os_path_join args.package_path "Utilities") "ubsan_supressions.supp")
    else e
  let e := if (pyList args.sanitize).contains "thread" then
      envSet e "TSAN_OPTIONS" "halt_on_error=true" else e
  let e := if args.action = "test" ∧ ¬ args.skip_long_tests then
      envSet e "SOURCEKIT_LSP_ENABLE_LONG_TESTS" "1" else e
  envSet e "SWIFT_EXEC" (swift_exec ++ "c")

-- ---------------------------------------------------------------------------
-- Actions

/-- Transcribes `build_single_product`. -/
def build_single_product (env : SysEnv) (product swift_exec : String) (s : St) :
    Except PyErr Unit × St :=
  match get_swiftpm_options env swift_exec s with
  | (.error e, s1) => (.error e, s1)
  | (.ok swiftpm_args, s1) =>
    let _e := get_swiftpm_environment_variables env swift_exec s1.args
    check_call env s1.args.verbose
      ([some swift_exec, some "build", some "--product", some product] ++ swiftpm_args) s1

/-- The `for product in products` loop of the build action: stops at the
    first product whose build fails. -/
def build_products (env : SysEnv) (swift_exec : String) :
    List String → St → Except PyErr Unit × St
  | [], s => (.ok (), s)
  | p :: rest, s =>
    match build_single_product env p swift_exec s with
    | (.ok _, s1) => build_products env swift_exec rest s1
    | (.error e, s1) => (.error e, s1)

/-- The fixed, ordered product list of the build action. -/
def products : List String :=
  ["SourceKitLSPPackageTests", "_SourceKitLSP", "sourcekit-lsp"]

/-- Transcribes `run_tests`. -/
def run_tests (env : SysEnv) (swift_exec : String) (s : St) : Except PyErr Unit × St :=
  match get_swiftpm_options env swift_exec s with
  | (.error e, s1) => (.error e, s1)
  | (.ok swiftpm_args, s1) =>
    let _e := get_swiftpm_environment_variables env swift_exec s1.args
    match swiftpm_bin_path env swift_exec swiftpm_args s1 with
    | (.error e, s2) => (.error e, s2)
    | (.ok bin_path, s2) =>
      let tests := os_path_join bin_path "sk-tests"
      let s3 := { s2 with trace := s2.trace ++ [.print ("Cleaning " ++ tests), .rmtree tests] }
      check_call env s3.args.verbose
        ([some swift_exec, some "test", some "--parallel", some "--disable-testable-imports",
          some "--test-product", some "SourceKitLSPPackageTests"] ++ swiftpm_args) s3

/-- Transcribes `install_binary`: one `rsync -a` copy. -/
def install_binary (env : SysEnv) (exe source_dir install_dir : String) (verbose : Bool)
    (s : St) : Except PyErr Unit × St :=
  check_call env verbose
    [some "rsync", some "-a", some (os_path_join source_dir exe), some install_dir] s

/-- The `for prefix in args.install_prefixes` loop of `install`. -/
def install_loop (env : SysEnv) (bin_path : String) (verbose : Bool) :
    List String → St → Except PyErr Unit × St
  | [], s => (.ok (), s)
  | p :: rest, s =>
    match install_binary env "sourcekit-lsp" bin_path (os_path_join p "bin") verbose s with
    | (.ok _, s1) => install_loop env bin_path verbose rest s1
    | (.error e, s1) => (.error e, s1)

/-- Transcribes `install`. -/
def install (env : SysEnv) (swift_exec : String) (s : St) : Except PyErr Unit × St :=
  match get_swiftpm_options env swift_exec s with
  | (.error e, s1) => (.error e, s1)
  | (.ok swiftpm_args, s1) =>
    let _e := get_swiftpm_environment_variables env swift_exec s1.args
    match swiftpm_bin_path env swift_exec swiftpm_args s1 with
    | (.error e, s2) => (.error e, s2)
    | (.ok bin_path, s2) =>
      let swiftpm_args := swiftpm_args ++ [some "-Xswiftc", some "-no-toolchain-stdlib-rpath"]
      match check_call env false ([some swift_exec, some "build"] ++ swiftpm_args) s2 with
      | (.error e, s3) => (.error e, s3)
      | (.ok _, s3) =>
        let s4 :=
          if pyTruthy s3.args.install_prefixes then s3
          else { s3 with args := { s3.args with install_prefixes := some [s3.args.toolchain] } }
        install_loop env bin_path s4.args.verbose (pyList s4.args.install_prefixes) s4

/-- Transcribes `handle_invocation`: dispatch on the action name. -/
def handle_invocation (env : SysEnv) (swift_exec : String) (s : St) : Except PyErr Unit × St :=
  if s.args.action = "build" then build_products env swift_exec products s
  else if s.args.action = "test" then run_tests env swift_exec s
  else if s.args.action = "install" then install env swift_exec s
  else (.error (.systemExit ("unknown action '" ++ s.args.action ++ "'")), s)

-- ---------------------------------------------------------------------------
-- Argument parsing and main

/-- The tail of `parse_args` after argparse has bound the flags: the
    `--sanitize` / `--sanitize-all` mutual-exclusion check, then path
    canonicalisation with `os.path.abspath`. -/
def parse_args (env : SysEnv) (raw : RawArgs) : Except PyErr Args :=
  if pyTruthy raw.sanitize ∧ raw.sanitize_all then
    .error (.systemExit "cannot combine --sanitize with --sanitize-all")
  else
    .ok { action := raw.action
          package_path := abspath env.cwd raw.package_path
          toolchain := abspath env.cwd raw.toolchain
          ninja_bin := raw.ninja_bin
          build_path := abspath env.cwd raw.build_path
          configuration := raw.configuration
          no_local_deps := raw.no_local_deps
          sanitize := raw.sanitize
          sanitize_all := raw.sanitize_all
          no_clean := raw.no_clean
          verbose := raw.verbose
          cross_compile_host := raw.cross_compile_host
          cross_compile_config := raw.cross_compile_config
          skip_long_tests := raw.skip_long_tests
          install_prefixes := raw.install_prefixes
          target_info := none }

/-- The body of `main` after `parse_args`: one run of the requested action,
    then, under `--sanitize-all`, the sanitizer loop, which mutates the
    `sanitize` and `build_path` fields of the one argparse namespace held in
    the state (the script keeps the pre-loop build path in the local
    `base`). -/
def main_core (env : SysEnv) (s : St) : Except PyErr Unit × St :=
  let swift_exec :=
    if s.args.toolchain ≠ "" then os_path_join (os_path_join s.args.toolchain "bin") "swift"
    else "swift"
  match handle_invocation env swift_exec s with
  | (.error e, s1) => (.error e, s1)
  | (.ok _, s1) =>
    if s1.args.sanitize_all then
      let base := s1.args.build_path
      let a2 := { s1.args with sanitize := some ["address"]
                               build_path := os_path_join base "test-asan" }
      let s2 : St :=
        ⟨a2, s1.trace ++ [.print ("=== " ++ s1.args.action ++ " sourcekit-lsp with asan ===")]⟩
      match handle_invocation env swift_exec s2 with
      | (.error e, s3) => (.error e, s3)
      | (.ok _, s3) =>
        let a4 := { s3.args with sanitize := some ["thread"]
                                 build_path := os_path_join base "test-tsan" }
        let s4 : St :=
          ⟨a4, s3.trace ++ [.print ("=== " ++ s3.args.action ++ " sourcekit-lsp with tsan ===")]⟩
        match handle_invocation env swift_exec s4 with
        | (.error e, s5) => (.error e, s5)
        | (.ok _, s5) =>
          if env.system ≠ "Linux" then
            let a6 := { s5.args with sanitize := some ["undefined"]
                                     build_path := os_path_join base "test-ubsan" }
            let s6 : St :=
              ⟨a6, s5.trace ++
                [.print ("=== " ++ s5.args.action ++ " sourcekit-lsp with ubsan ===")]⟩
            handle_invocation env swift_exec s6
          else (.ok (), s5)
    else (.ok (), s1)

/-- Transcribes `main`: parse, then run.  On a `parse_args` failure the process exits
    before anything else happens, so the event trace is empty. -/
def main_run (env : SysEnv) (raw : RawArgs) : Except PyErr Unit × List Ev :=
  match parse_args env raw with
  | .error e => (.error e, [])
  | .ok args =>
    let r := main_core env ⟨args, []⟩
    (r.1, r.2.trace)

-- ---------------------------------------------------------------------------
-- Statement-side descriptions of expected commands and traces

/-- Computes `os.path.join(args.toolchain, 'bin', 'swift')` as done in `main`. -/
def swiftExecOf (toolchain : String) : String :=
  os_path_join (os_path_join toolchain "bin") "swift"

/-- The option list `get_swiftpm_options` assembles on Linux (no verbose
    flag, no Android environment, no cross-compilation host). -/
def linux_opts (pkg bp tc cfg : String) (sanitize : List String) : List (Option String) :=
  [some "--package-path", some pkg, some "--build-path", some bp,
   some "--configuration", some cfg]
  ++ sanitize.map (fun san => some ("--sanitize=" ++ san))
  ++ [some "-Xcxx", some "-I", some "-Xcxx",
      some (os_path_join (os_path_join tc "lib") "swift"),
      some "-Xcxx", some "-I", some "-Xcxx",
      some (os_path_join (os_path_join (os_path_join tc "lib") "swift") "Block")]
  ++ [some "-Xlinker", some "-rpath", some "-Xlinker", some "$ORIGIN/../lib/swift/linux"]

/-- The option list `get_swiftpm_options` assembles on Darwin (no verbose
    flag, no Android environment, no cross-compilation host). -/
def darwin_opts (pkg bp cfg : String) (sanitize : List String) : List (Option String) :=
  [some "--package-path", some pkg, some "--build-path", some bp,
   some "--configuration", some cfg]
  ++ sanitize.map (fun san => some ("--sanitize=" ++ san))
  ++ [some "-Xlinker", some "-rpath", some "-Xlinker",
      some "@executable_path/../lib/swift/macosx"]

/-- One `swift build --product` command line. -/
def buildCmd (se product : String) (opts : List (Option String)) : List (Option String) :=
  [some se, some "build", some "--product", some product] ++ opts

/-- The events of one build-action pass: for each of the three products in
    order, one target-introspection spawn and one build spawn. -/
def buildPassTrace (se : String) (opts : List (Option String)) : List Ev :=
  [.spawn (tiCmd se), .spawn (buildCmd se "SourceKitLSPPackageTests" opts),
   .spawn (tiCmd se), .spawn (buildCmd se "_SourceKitLSP" opts),
   .spawn (tiCmd se), .spawn (buildCmd se "sourcekit-lsp" opts)]

/-- The `swift build --show-bin-path` command line. -/
def binPathCmd (se : String) (opts : List (Option String)) : List (Option String) :=
  [some se, some "build", some "--show-bin-path"] ++ opts

/-- The `swift test` command line. -/
def testCmd (se : String) (opts : List (Option String)) : List (Option String) :=
  [some se, some "test", some "--parallel", some "--disable-testable-imports",
   some "--test-product", some "SourceKitLSPPackageTests"] ++ opts

/-- The events of one test-action pass: introspection spawn, bin-path query,
    cleaning of the stale test directory, then the test spawn. -/
def testPassTrace (se binp : String) (opts : List (Option String)) : List Ev :=
  [.spawn (tiCmd se), .spawn (binPathCmd se opts),
   .print ("Cleaning " ++ os_path_join binp "sk-tests"),
   .rmtree (os_path_join binp "sk-tests"),
   .spawn (testCmd se opts)]

/-- A Linux host on which target introspection succeeds with `ti` and every
    spawned subprocess exits 0. -/
def linuxEnv (ti : TargetInfo) (binp : String) : SysEnv :=
  { system := "Linux", environ_ANDROID_DATA := false, cwd := "/", environ := [],
    targetInfo := some ti, targetInfoErr := "", fails := fun _ => false, binPath := binp }

/-- A Darwin host on which target introspection succeeds with `ti` and every
    spawned subprocess exits 0. -/
def darwinEnv (ti : TargetInfo) (binp : String) : SysEnv :=
  { system := "Darwin", environ_ANDROID_DATA := false, cwd := "/", environ := [],
    targetInfo := some ti, targetInfoErr := "", fails := fun _ => false, binPath := binp }

/-- A parsed configuration requesting `--sanitize-all` for the given action,
    with no other optional flag set. -/
def allSanArgs (action pkg bp tc cfg : String) : Args :=
  { action := action, package_path := pkg, toolchain := tc, ninja_bin := none,
    build_path := bp, configuration := cfg, no_local_deps := false, sanitize := none,
    sanitize_all := true, no_clean := false, verbose := false, cross_compile_host := none,
    cross_compile_config := none, skip_long_tests := false, install_prefixes := none,
    target_info := none }

-- ---------------------------------------------------------------------------
-- Step lemmas shared by several claims

theorem linuxEnv_system (ti : TargetInfo) (binp : String) :
    (linuxEnv ti binp).system = "Linux" := rfl

theorem darwinEnv_system (ti : TargetInfo) (binp : String) :
    (darwinEnv ti binp).system = "Darwin" := rfl

theorem bsp_linux_none (ti : TargetInfo) (binp se p : String)
    (act pkg tc : String) (nb : Option String) (bp cfg : String) (nld : Bool)
    (sall ncl : Bool) (ccc : Option String)
    (slt : Bool) (ip : Option (List String)) (tio : Option TargetInfo) (tr : List Ev) :
    build_single_product (linuxEnv ti binp) p se
      ⟨⟨act, pkg, tc, nb, bp, cfg, nld, none, sall, ncl, false, none, ccc, slt, ip, tio⟩,
       tr⟩ =
    (.ok (),
     ⟨⟨act, pkg, tc, nb, bp, cfg, nld, none, sall, ncl, false, none, ccc, slt, ip, some ti⟩,
      tr ++ [.spawn (tiCmd se)]
         ++ [.spawn (buildCmd se p (linux_opts pkg bp tc cfg []))]⟩) := rfl

theorem bsp_linux_one (san0 : String) (ti : TargetInfo) (binp se p : String)
    (act pkg tc : String) (nb : Option String) (bp cfg : String) (nld : Bool)
    (sall ncl : Bool) (ccc : Option String)
    (slt : Bool) (ip : Option (List String)) (tio : Option TargetInfo) (tr : List Ev) :
    build_single_product (linuxEnv ti binp) p se
      ⟨⟨act, pkg, tc, nb, bp, cfg, nld, some [san0], sall, ncl, false, none, ccc, slt, ip,
        tio⟩, tr⟩ =
    (.ok (),
     ⟨⟨act, pkg, tc, nb, bp, cfg, nld, some [san0], sall, ncl, false, none, ccc, slt, ip,
       some ti⟩,
      tr ++ [.spawn (tiCmd se)]
         ++ [.spawn (buildCmd se p (linux_opts pkg bp tc cfg [san0]))]⟩) := rfl

theorem bsp_darwin_none (ti : TargetInfo) (binp se p : String)
    (act pkg tc : String) (nb : Option String) (bp cfg : String) (nld : Bool)
    (sall ncl : Bool) (ccc : Option String)
    (slt : Bool) (ip : Option (List String)) (tio : Option TargetInfo) (tr : List Ev) :
    build_single_product (darwinEnv ti binp) p se
      ⟨⟨act, pkg, tc, nb, bp, cfg, nld, none, sall, ncl, false, none, ccc, slt, ip, tio⟩,
       tr⟩ =
    (.ok (),
     ⟨⟨act, pkg, tc, nb, bp, cfg, nld, none, sall, ncl, false, none, ccc, slt, ip, some ti⟩,
      tr ++ [.spawn (tiCmd se)]
         ++ [.spawn (buildCmd se p (darwin_opts pkg bp cfg []))]⟩) := rfl

theorem bsp_darwin_one (san0 : String) (ti : TargetInfo) (binp se p : String)
    (act pkg tc : String) (nb : Option String) (bp cfg : String) (nld : Bool)
    (sall ncl : Bool) (ccc : Option String)
    (slt : Bool) (ip : Option (List String)) (tio : Option TargetInfo) (tr : List Ev) :
    build_single_product (darwinEnv ti binp) p se
      ⟨⟨act, pkg, tc, nb, bp, cfg, nld, some [san0], sall, ncl, false, none, ccc, slt, ip,
        tio⟩, tr⟩ =
    (.ok (),
     ⟨⟨act, pkg, tc, nb, bp, cfg, nld, some [san0], sall, ncl, false, none, ccc, slt, ip,
       some ti⟩,
      tr ++ [.spawn (tiCmd se)]
         ++ [.spawn (buildCmd se p (darwin_opts pkg bp cfg [san0]))]⟩) := rfl

theorem pass_linux_none (ti : TargetInfo) (binp se : String)
    (act pkg tc : String) (nb : Option String) (bp cfg : String) (nld : Bool)
    (sall ncl : Bool) (ccc : Option String)
    (slt : Bool) (ip : Option (List String)) (tio : Option TargetInfo) (tr : List Ev) :
    build_products (linuxEnv ti binp) se products
      ⟨⟨act, pkg, tc, nb, bp, cfg, nld, none, sall, ncl, false, none, ccc, slt, ip, tio⟩,
       tr⟩ =
    (.ok (),
     ⟨⟨act, pkg, tc, nb, bp, cfg, nld, none, sall, ncl, false, none, ccc, slt, ip, some ti⟩,
      tr ++ buildPassTrace se (linux_opts pkg bp tc cfg [])⟩) := by
  simp only [products, build_products, bsp_linux_none, buildPassTrace, List.append_assoc,
    List.singleton_append, List.cons_append, List.nil_append]

theorem pass_linux_one (san0 : String) (ti : TargetInfo) (binp se : String)
    (act pkg tc : String) (nb : Option String) (bp cfg : String) (nld : Bool)
    (sall ncl : Bool) (ccc : Option String)
    (slt : Bool) (ip : Option (List String)) (tio : Option TargetInfo) (tr : List Ev) :
    build_products (linuxEnv ti binp) se products
      ⟨⟨act, pkg, tc, nb, bp, cfg, nld, some [san0], sall, ncl, false, none, ccc, slt, ip,
        tio⟩, tr⟩ =
    (.ok (),
     ⟨⟨act, pkg, tc, nb, bp, cfg, nld, some [san0], sall, ncl, false, none, ccc, slt, ip,
       some ti⟩,
      tr ++ buildPassTrace se (linux_opts pkg bp tc cfg [san0])⟩) := by
  simp only [products, build_products, bsp_linux_one, buildPassTrace, List.append_assoc,
    List.singleton_append, List.cons_append, List.nil_append]

theorem pass_darwin_none (ti : TargetInfo) (binp se : String)
    (act pkg tc : String) (nb : Option String) (bp cfg : String) (nld : Bool)
    (sall ncl : Bool) (ccc : Option String)
    (slt : Bool) (ip : Option (List String)) (tio : Option TargetInfo) (tr : List Ev) :
    build_products (darwinEnv ti binp) se products
      ⟨⟨act, pkg, tc, nb, bp, cfg, nld, none, sall, ncl, false, none, ccc, slt, ip, tio⟩,
       tr⟩ =
    (.ok (),
     ⟨⟨act, pkg, tc, nb, bp, cfg, nld, none, sall, ncl, false, none, ccc, slt, ip, some ti⟩,
      tr ++ buildPassTrace se (darwin_opts pkg bp cfg [])⟩) := by
  simp only [products, build_products, bsp_darwin_none, buildPassTrace, List.append_assoc,
    List.singleton_append, List.cons_append, List.nil_append]

theorem pass_darwin_one (san0 : String) (ti : TargetInfo) (binp se : String)
    (act pkg tc : String) (nb : Option String) (bp cfg : String) (nld : Bool)
    (sall ncl : Bool) (ccc : Option String)
    (slt : Bool) (ip : Option (List String)) (tio : Option TargetInfo) (tr : List Ev) :
    build_products (darwinEnv ti binp) se products
      ⟨⟨act, pkg, tc, nb, bp, cfg, nld, some [san0], sall, ncl, false, none, ccc, slt, ip,
        tio⟩, tr⟩ =
    (.ok (),
     ⟨⟨act, pkg, tc, nb, bp, cfg, nld, some [san0], sall, ncl, false, none, ccc, slt, ip,
       some ti⟩,
      tr ++ buildPassTrace se (darwin_opts pkg bp cfg [san0])⟩) := by
  simp only [products, build_products, bsp_darwin_one, buildPassTrace, List.append_assoc,
    List.singleton_append, List.cons_append, List.nil_append]

theorem rt_linux_none (ti : TargetInfo) (binp se : String)
    (act pkg tc : String) (nb : Option String) (bp cfg : String) (nld : Bool)
    (sall ncl : Bool) (ccc : Option String)
    (slt : Bool) (ip : Option (List String)) (tio : Option TargetInfo) (tr : List Ev) :
    run_tests (linuxEnv ti binp) se
      ⟨⟨act, pkg, tc, nb, bp, cfg, nld, none, sall, ncl, false, none, ccc, slt, ip, tio⟩,
       tr⟩ =
    (.ok (),
     ⟨⟨act, pkg, tc, nb, bp, cfg, nld, none, sall, ncl, false, none, ccc, slt, ip, some ti⟩,
      tr ++ [.spawn (tiCmd se)]
         ++ [.spawn (binPathCmd se (linux_opts pkg bp tc cfg []))]
         ++ [.print ("Cleaning " ++ os_path_join binp "sk-tests"),
             .rmtree (os_path_join binp "sk-tests")]
         ++ [.spawn (testCmd se (linux_opts pkg bp tc cfg []))]⟩) := rfl

theorem rt_linux_one (san0 : String) (ti : TargetInfo) (binp se : String)
    (act pkg tc : String) (nb : Option String) (bp cfg : String) (nld : Bool)
    (sall ncl : Bool) (ccc : Option String)
    (slt : Bool) (ip : Option (List String)) (tio : Option TargetInfo) (tr : List Ev) :
    run_tests (linuxEnv ti binp) se
      ⟨⟨act, pkg, tc, nb, bp, cfg, nld, some [san0], sall, ncl, false, none, ccc, slt, ip,
        tio⟩, tr⟩ =
    (.ok (),
     ⟨⟨act, pkg, tc, nb, bp, cfg, nld, some [san0], sall, ncl, false, none, ccc, slt, ip,
       some ti⟩,
      tr ++ [.spawn (tiCmd se)]
         ++ [.spawn (binPathCmd se (linux_opts pkg bp tc cfg [san0]))]
         ++ [.print ("Cleaning " ++ os_path_join binp "sk-tests"),
             .rmtree (os_path_join binp "sk-tests")]
         ++ [.spawn (testCmd se (linux_opts pkg bp tc cfg [san0]))]⟩) := rfl

-- ---------------------------------------------------------------------------
-- Concrete instances used by witnesses and counterexamples

/-- A concrete target-info result. -/
def tiX : TargetInfo :=
  ⟨"x86_64-apple-macosx", "x86_64-unknown-linux-gnu"⟩

-- ---------------------------------------------------------------------------
-- Claims

/-- Claim C1: when "all sanitizers" mode is requested, the sanitizer passes
    run in the fixed order address, thread, then undefined, each pass using
    a distinct subdirectory of the base build-output path named for its
    sanitizer (`test-asan`, `test-tsan`, `test-ubsan`), and on the Linux
    platform family the undefined pass is skipped so exactly two sanitizer
    passes run.  Stated for the build action over arbitrary package, build,
    toolchain and configuration paths via the complete event trace: on
    Darwin the trace shows three sanitizer passes in that order with those
    subdirectories; on Linux it shows exactly the address and thread
    passes. -/
theorem C1_sanitize_all_pass_order (pkg bp tc cfg : String) (htc : tc ≠ "")
    (ti : TargetInfo) (binp : String) :
    (main_core (darwinEnv ti binp) ⟨allSanArgs "build" pkg bp tc cfg, []⟩ =
      (.ok (),
       ⟨{ allSanArgs "build" pkg bp tc cfg with
            sanitize := some ["undefined"]
            build_path := os_path_join bp "test-ubsan"
            target_info := some ti },
        buildPassTrace (swiftExecOf tc) (darwin_opts pkg bp cfg [])
        ++ [.print "=== build sourcekit-lsp with asan ==="]
        ++ buildPassTrace (swiftExecOf tc)
             (darwin_opts pkg (os_path_join bp "test-asan") cfg ["address"])
        ++ [.print "=== build sourcekit-lsp with tsan ==="]
        ++ buildPassTrace (swiftExecOf tc)
             (darwin_opts pkg (os_path_join bp "test-tsan") cfg ["thread"])
        ++ [.print "=== build sourcekit-lsp with ubsan ==="]
        ++ buildPassTrace (swiftExecOf tc)
             (darwin_opts pkg (os_path_join bp "test-ubsan") cfg ["undefined"])⟩)) ∧
    (main_core (linuxEnv ti binp) ⟨allSanArgs "build" pkg bp tc cfg, []⟩ =
      (.ok (),
       ⟨{ allSanArgs "build" pkg bp tc cfg with
            sanitize := some ["thread"]
            build_path := os_path_join bp "test-tsan"
            target_info := some ti },
        buildPassTrace (swiftExecOf tc) (linux_opts pkg bp tc cfg [])
        ++ [.print "=== build sourcekit-lsp with asan ==="]
        ++ buildPassTrace (swiftExecOf tc)
             (linux_opts pkg (os_path_join bp "test-asan") tc cfg ["address"])
        ++ [.print "=== build sourcekit-lsp with tsan ==="]
        ++ buildPassTrace (swiftExecOf tc)
             (linux_opts pkg (os_path_join bp "test-tsan") tc cfg ["thread"])⟩)) := by
  refine ⟨?_, ?_⟩ <;>
  simp only [main_core, allSanArgs, htc, ne_eq, not_false_iff, if_true, handle_invocation,
    swiftExecOf, linuxEnv_system, darwinEnv_system, pass_linux_none, pass_linux_one,
    pass_darwin_none, pass_darwin_one, List.nil_append, reduceIte, String.reduceEq,
    String.reduceAppend, eq_self_iff_true, not_true, if_false, List.append_assoc,
    List.singleton_append, List.cons_append, buildPassTrace]

/-- Witness for C1's hypothesis `tc ≠ ""`: at a concrete configuration the
    Linux all-sanitizers build run succeeds. -/
theorem C1_sanitize_all_pass_order_witness :
    (main_core (linuxEnv tiX "/bin-path")
      ⟨allSanArgs "build" "/pkg" "/b" "/tc" "debug", []⟩).1 = .ok () :=
  congrArg Prod.fst
    (C1_sanitize_all_pass_order "/pkg" "/b" "/tc" "debug" (by decide) tiX "/bin-path").2

/-- Claim C7 as stated is false: the sanitizer loop in `main` does not work
    on a copy of the configuration record; it mutates the record produced by
    `parse_args` in place.  At a concrete Linux all-sanitizers build run the
    configuration record after `main` differs from the one before (its
    `sanitize` list and `build_path` were reassigned by the loop, and
    `target_info` was written by `get_build_target`). -/
theorem C7_counterexample_original_mutated :
    (main_core (linuxEnv tiX "/bin-path")
        ⟨allSanArgs "build" "/pkg" "/b" "/tc" "debug", []⟩).2.args ≠
      allSanArgs "build" "/pkg" "/b" "/tc" "debug" := by decide

/-- Claim C7 amended: each iteration of the sanitizer loop mutates the
    sanitizer list and build-output path of the original configuration
    record in place (only the base build path is saved in a local variable
    before the loop); after a Linux all-sanitizers build run the original
    record holds the last pass's values: sanitize `["thread"]`, build path
    `<base>/test-tsan`, plus the target info stored by the target
    resolver. -/
theorem C7_amended_inplace_mutation (pkg bp tc cfg : String) (htc : tc ≠ "")
    (ti : TargetInfo) (binp : String) :
    (main_core (linuxEnv ti binp) ⟨allSanArgs "build" pkg bp tc cfg, []⟩).2.args =
      { allSanArgs "build" pkg bp tc cfg with
          sanitize := some ["thread"]
          build_path := os_path_join bp "test-tsan"
          target_info := some ti } := by
  simp only [main_core, allSanArgs, htc, ne_eq, not_false_iff, if_true, handle_invocation,
    swiftExecOf, linuxEnv_system, pass_linux_none, pass_linux_one, List.nil_append,
    reduceIte, String.reduceEq, String.reduceAppend, eq_self_iff_true, not_true, if_false,
    List.append_assoc, List.singleton_append, List.cons_append]

/-- Witness for C7's amended theorem at a concrete configuration. -/
theorem C7_amended_inplace_mutation_witness :
    (main_core (linuxEnv tiX "/bin-path")
        ⟨allSanArgs "build" "/pkg" "/b" "/tc" "debug", []⟩).2.args =
      { allSanArgs "build" "/pkg" "/b" "/tc" "debug" with
          sanitize := some ["thread"]
          build_path := os_path_join "/b" "test-tsan"
          target_info := some tiX } :=
  C7_amended_inplace_mutation "/pkg" "/b" "/tc" "debug" (by decide) tiX "/bin-path"

/-- Claim C10: when `--sanitize-all` is set, the requested action first runs
    once with no sanitizer into the base build-output path, before any
    sanitizer pass; on Linux an all-sanitizers run therefore performs three
    full action executions (unsanitized, address, thread).  Stated for the
    test action over arbitrary paths: the complete event trace is the
    unsanitized pass at the base path, then the address pass, then the
    thread pass. -/
theorem C10_unsanitized_run_first (pkg bp tc cfg : String) (htc : tc ≠ "")
    (ti : TargetInfo) (binp : String) :
    main_core (linuxEnv ti binp) ⟨allSanArgs "test" pkg bp tc cfg, []⟩ =
      (.ok (),
       ⟨{ allSanArgs "test" pkg bp tc cfg with
            sanitize := some ["thread"]
            build_path := os_path_join bp "test-tsan"
            target_info := some ti },
        testPassTrace (swiftExecOf tc) binp (linux_opts pkg bp tc cfg [])
        ++ [.print "=== test sourcekit-lsp with asan ==="]
        ++ testPassTrace (swiftExecOf tc) binp
             (linux_opts pkg (os_path_join bp "test-asan") tc cfg ["address"])
        ++ [.print "=== test sourcekit-lsp with tsan ==="]
        ++ testPassTrace (swiftExecOf tc) binp
             (linux_opts pkg (os_path_join bp "test-tsan") tc cfg ["thread"])⟩) := by
  simp only [main_core, allSanArgs, htc, ne_eq, not_false_iff, if_true, handle_invocation,
    swiftExecOf, linuxEnv_system, rt_linux_none, rt_linux_one, List.nil_append, reduceIte,
    String.reduceEq, String.reduceAppend, eq_self_iff_true, not_true, if_false,
    List.append_assoc, List.singleton_append, List.cons_append, testPassTrace]

/-- Witness for C10's hypothesis `tc ≠ ""` at a concrete configuration. -/
theorem C10_unsanitized_run_first_witness :
    (main_core (linuxEnv tiX "/bin-path")
      ⟨allSanArgs "test" "/pkg" "/b" "/tc" "debug", []⟩).1 = .ok () :=
  congrArg Prod.fst
    (C10_unsanitized_run_first "/pkg" "/b" "/tc" "debug" (by decide) tiX "/bin-path")


/-- A parsed configuration with no sanitizer request and no optional flag
    set, used as a base for concrete instances. -/
def plainArgs (action pkg bp tc cfg : String) : Args :=
  { action := action, package_path := pkg, toolchain := tc, ninja_bin := none,
    build_path := bp, configuration := cfg, no_local_deps := false, sanitize := none,
    sanitize_all := false, no_clean := false, verbose := false, cross_compile_host := none,
    cross_compile_config := none, skip_long_tests := false, install_prefixes := none,
    target_info := none }

/-- Claim C2: whenever both `--sanitize` and `--sanitize-all` are set, the
    process terminates with a non-zero exit status (a `SystemExit` raised by
    `fatal_error` during argument parsing) before any subprocess is invoked:
    the run's result is the fatal mutual-exclusion error and its event trace
    is empty. -/
theorem C2_sanitize_mutual_exclusion (env : SysEnv) (raw : RawArgs) (l : List String)
    (hs : raw.sanitize = some l) (hl : l ≠ []) (ha : raw.sanitize_all = true) :
    main_run env raw =
      (.error (.systemExit "cannot combine --sanitize with --sanitize-all"), []) := by
  cases l with
  | nil => exact absurd rfl hl
  | cons x xs => simp [main_run, parse_args, pyTruthy, hs, ha]

/-- Witness for C2 at a concrete command line. -/
theorem C2_sanitize_mutual_exclusion_witness :
    main_run (linuxEnv tiX "/bin-path")
        { action := "build", package_path := ".", toolchain := "/tc", ninja_bin := none,
          build_path := ".build", configuration := "debug", no_local_deps := false,
          sanitize := some ["address"], sanitize_all := true, no_clean := false,
          verbose := false, cross_compile_host := none, cross_compile_config := none,
          skip_long_tests := false, install_prefixes := none } =
      (.error (.systemExit "cannot combine --sanitize with --sanitize-all"), []) :=
  C2_sanitize_mutual_exclusion _ _ ["address"] rfl (by decide) rfl

/-- Claim C3: the build action builds its three products in the fixed order
    SourceKitLSPPackageTests, _SourceKitLSP, sourcekit-lsp, one external
    invocation per product; if a product's build fails the whole action
    fails at once with that failure, so when the second product fails the
    third is never invoked: the run ends in exactly the state reached by the
    second product's failure. -/
theorem C3_build_order_first_failure_aborts (env : SysEnv) (se : String) (s s1 s2 : St)
    (e : PyErr) (hact : s.args.action = "build")
    (h1 : build_single_product env "SourceKitLSPPackageTests" se s = (.ok (), s1))
    (h2 : build_single_product env "_SourceKitLSP" se s1 = (.error e, s2)) :
    products = ["SourceKitLSPPackageTests", "_SourceKitLSP", "sourcekit-lsp"] ∧
    handle_invocation env se s = (.error e, s2) := by
  refine ⟨rfl, ?_⟩
  simp only [handle_invocation, hact, String.reduceEq, reduceIte, products,
    build_products, h1, h2]

/-- The system for C3's witness: the external build tool fails exactly on
    commands that name the `_SourceKitLSP` product. -/
def envC3 : SysEnv :=
  { system := "Linux", environ_ANDROID_DATA := false, cwd := "/", environ := [],
    targetInfo := some tiX, targetInfoErr := "",
    fails := fun c => decide (some "_SourceKitLSP" ∈ c), binPath := "/bin-path" }

/-- The state after C3's witness builds the first product. -/
def c3s1 : St :=
  ⟨{ plainArgs "build" "/pkg" "/b" "/tc" "debug" with target_info := some tiX },
   [.spawn (tiCmd "/tc/bin/swift"),
    .spawn (buildCmd "/tc/bin/swift" "SourceKitLSPPackageTests"
      (linux_opts "/pkg" "/b" "/tc" "debug" []))]⟩

/-- The failing second-product command of C3's witness. -/
def c3cmd2 : List (Option String) :=
  buildCmd "/tc/bin/swift" "_SourceKitLSP" (linux_opts "/pkg" "/b" "/tc" "debug" [])

/-- The state in which C3's witness run aborts: the second product's failure
    state; no command for the third product appears. -/
def c3s2 : St :=
  ⟨{ plainArgs "build" "/pkg" "/b" "/tc" "debug" with target_info := some tiX },
   [.spawn (tiCmd "/tc/bin/swift"),
    .spawn (buildCmd "/tc/bin/swift" "SourceKitLSPPackageTests"
      (linux_opts "/pkg" "/b" "/tc" "debug" [])),
    .spawn (tiCmd "/tc/bin/swift"),
    .spawn c3cmd2]⟩

/-- Witness for C3 at a concrete configuration whose second product fails. -/
theorem C3_build_order_first_failure_aborts_witness :
    products = ["SourceKitLSPPackageTests", "_SourceKitLSP", "sourcekit-lsp"] ∧
    handle_invocation envC3 "/tc/bin/swift"
        ⟨plainArgs "build" "/pkg" "/b" "/tc" "debug", []⟩ =
      (.error (.calledProcessError c3cmd2), c3s2) :=
  C3_build_order_first_failure_aborts envC3 "/tc/bin/swift" _ c3s1 c3s2 _ rfl rfl rfl

-- ---------------------------------------------------------------------------
-- Facts about the target resolver used by the cross-compilation claims

theorem gbt_trace (env : SysEnv) (se : String) (s : St) :
    (get_build_target env se s).2.trace = s.trace ++ [.spawn (tiCmd se)] := by
  unfold get_build_target
  cases henv : env.targetInfo with
  | none => by_cases h : env.system = "Darwin" <;> simp [h]
  | some ti => by_cases h : env.system = "Darwin" <;> simp [h]

theorem gbt_host (env : SysEnv) (se : String) (s : St) :
    (get_build_target env se s).2.args.cross_compile_host = s.args.cross_compile_host := by
  unfold get_build_target
  cases henv : env.targetInfo with
  | none => by_cases h : env.system = "Darwin" <;> simp [h]
  | some ti => by_cases h : env.system = "Darwin" <;> simp [h]

theorem gbt_config (env : SysEnv) (se : String) (s : St) :
    (get_build_target env se s).2.args.cross_compile_config =
      s.args.cross_compile_config := by
  unfold get_build_target
  cases henv : env.targetInfo with
  | none => by_cases h : env.system = "Darwin" <;> simp [h]
  | some ti => by_cases h : env.system = "Darwin" <;> simp [h]

/-- When target introspection succeeds, `get_build_target` returns the
    (on Darwin: unversioned) triple, stores the target info on the
    configuration record and spawns exactly one introspection subprocess. -/
theorem gbt_some (env : SysEnv) (se : String) (s : St) (ti : TargetInfo)
    (hti : env.targetInfo = some ti) :
    get_build_target env se s =
      (.ok (if env.system = "Darwin" then ti.unversionedTriple else ti.triple),
       ⟨{ s.args with target_info := some ti }, s.trace ++ [.spawn (tiCmd se)]⟩) := by
  unfold get_build_target
  rw [hti]
  by_cases h : env.system = "Darwin" <;> simp [h]

/-- Claim C4: for a configuration whose cross-compile host, together with
    the resolved build target, neither forms the supported desktop pair
    (`x86_64-apple-macosx` with `macosx-arm64`) nor matches the `android-`
    prefix pattern, option assembly terminates with a non-zero exit
    (`fatal_error`), printing the message naming the unsupported host to the
    diagnostic stream, and no subprocess beyond the single target
    introspection is ever spawned — in particular the external tool's build
    mode is never invoked. -/
theorem C4_unsupported_cross_host_fatal (env : SysEnv) (se : String) (s s1 : St)
    (h bt : String)
    (hhost : s.args.cross_compile_host = some h) (hne : h ≠ "")
    (hbt : get_build_target env se s = (.ok bt, s1))
    (hnm : ¬(bt = "x86_64-apple-macosx" ∧ h = "macosx-arm64"))
    (hna : strStarts "android-" h = false) :
    get_swiftpm_options env se s =
      (.error (.systemExit ("cannot cross-compile for " ++ h)), s1) ∧
    s1.trace = s.trace ++ [.spawn (tiCmd se)] := by
  have hh : s1.args.cross_compile_host = some h := by
    have hg := gbt_host env se s
    rw [hbt] at hg
    rw [← hhost]
    exact hg
  constructor
  · simp only [get_swiftpm_options, hbt, hh, hne, hnm, hna, if_false, ite_false,
      Bool.false_eq_true, if_true, ite_true]
  · have hg := gbt_trace env se s
    rw [hbt] at hg
    exact hg

/-- The system and state for C4's witness: a Linux host asked to
    cross-compile for `riscv64-unknown`. -/
def sC4 : St :=
  ⟨{ plainArgs "build" "/pkg" "/b" "/tc" "debug" with
      cross_compile_host := some "riscv64-unknown" }, []⟩

/-- Witness for C4 at a concrete unsupported cross-compile host. -/
theorem C4_unsupported_cross_host_fatal_witness :
    get_swiftpm_options (linuxEnv tiX "/bin-path") "/tc/bin/swift" sC4 =
      (.error (.systemExit ("cannot cross-compile for " ++ "riscv64-unknown")),
       ⟨{ sC4.args with target_info := some tiX }, [.spawn (tiCmd "/tc/bin/swift")]⟩) ∧
    (⟨{ sC4.args with target_info := some tiX },
      [.spawn (tiCmd "/tc/bin/swift")]⟩ : St).trace =
      sC4.trace ++ [.spawn (tiCmd "/tc/bin/swift")] :=
  C4_unsupported_cross_host_fatal (linuxEnv tiX "/bin-path") "/tc/bin/swift" sC4 _
    "riscv64-unknown" "x86_64-unknown-linux-gnu" rfl (by decide) rfl (by decide)
    (by decide)

/-- Claim C5: for a configuration whose resolved build target is
    `x86_64-apple-macosx` and whose cross-compile host is `macosx-arm64`,
    option assembly succeeds and the assembled option list carries the
    dual-architecture flags `--arch x86_64 --arch arm64`. -/
theorem C5_dual_arch_flags (env : SysEnv) (se : String) (s s1 : St)
    (hhost : s.args.cross_compile_host = some "macosx-arm64")
    (hbt : get_build_target env se s = (.ok "x86_64-apple-macosx", s1)) :
    ∃ opts, get_swiftpm_options env se s = (.ok opts, s1) ∧
      [some "--arch", some "x86_64", some "--arch", some "arm64"] <:+ opts := by
  have hh : s1.args.cross_compile_host = some "macosx-arm64" := by
    have hg := gbt_host env se s
    rw [hbt] at hg
    rw [← hhost]
    exact hg
  simp only [get_swiftpm_options, hbt, hh, String.reduceEq, reduceIte, and_self, if_true,
    if_false]
  exact ⟨_, rfl, List.suffix_append _ _⟩

/-- The state for C5's witness: a Darwin host cross-compiling for
    `macosx-arm64`. -/
def sC5 : St :=
  ⟨{ plainArgs "build" "/pkg" "/b" "/tc" "debug" with
      cross_compile_host := some "macosx-arm64" }, []⟩

/-- A Darwin target-info result whose unversioned triple is the desktop
    identifier. -/
def tiMac : TargetInfo := ⟨"x86_64-apple-macosx", "x86_64-apple-macosx14.0"⟩

/-- Witness for C5 at a concrete configuration. -/
theorem C5_dual_arch_flags_witness :
    ∃ opts, get_swiftpm_options (darwinEnv tiMac "/bin-path") "/tc/bin/swift" sC5 =
        (.ok opts,
         ⟨{ sC5.args with target_info := some tiMac }, [.spawn (tiCmd "/tc/bin/swift")]⟩) ∧
      [some "--arch", some "x86_64", some "--arch", some "arm64"] <:+ opts :=
  C5_dual_arch_flags (darwinEnv tiMac "/bin-path") "/tc/bin/swift" sC5 _ rfl rfl

/-- The configuration of C6's refutation: an `android-` cross-compile host
    with no `--cross-compile-config` destination descriptor. -/
def argsC6 : Args :=
  { plainArgs "build" "/pkg" "/b" "/tc" "debug" with
      cross_compile_host := some "android-aarch64" }

/-- Claim C6 as stated is false: with a mobile-pattern cross-compile host
    and an absent destination descriptor, the run is not stopped by a
    configuration check before any subprocess runs.  At a concrete input the
    introspection subprocess is spawned, the cross-compiling message is
    printed, option assembly succeeds with the absent descriptor (`None`)
    appended after `--destination`, and the run only dies later with a
    `TypeError` when the first build command containing `None` reaches
    `subprocess` — not with the spec's pre-subprocess configuration
    error. -/
theorem C6_counterexample_no_early_check :
    main_core (linuxEnv tiX "/bin-path") ⟨argsC6, []⟩ =
      (.error .typeError,
       ⟨{ argsC6 with target_info := some tiX },
        [.spawn (tiCmd "/tc/bin/swift"),
         .print "Cross-compiling for android-aarch64"]⟩) := rfl

/-- Claim C6 amended: with a mobile-pattern (`android-`) cross-compile host
    and no destination descriptor, option assembly performs no
    missing-descriptor check: it succeeds — after the target-introspection
    subprocess has already been spawned — printing the cross-compiling
    message and appending `--destination` followed by the absent value
    (`None`) to the option list; the run fails only later, with a
    `TypeError` at the first subprocess invocation that includes the absent
    value. -/
theorem C6_amended_destination_none_appended (env : SysEnv) (se : String) (s s1 : St)
    (h bt : String)
    (hhost : s.args.cross_compile_host = some h) (hne : h ≠ "")
    (hand : strStarts "android-" h = true)
    (hnm : ¬(bt = "x86_64-apple-macosx" ∧ h = "macosx-arm64"))
    (hcfg : s.args.cross_compile_config = none)
    (hbt : get_build_target env se s = (.ok bt, s1)) :
    (∃ opts, get_swiftpm_options env se s =
        (.ok opts, ⟨s1.args, s1.trace ++ [.print ("Cross-compiling for " ++ h)]⟩) ∧
      [some "--destination", none] <:+ opts) ∧
    s1.trace = s.trace ++ [.spawn (tiCmd se)] := by
  have hh : s1.args.cross_compile_host = some h := by
    have hg := gbt_host env se s
    rw [hbt] at hg
    rw [← hhost]
    exact hg
  have hc : s1.args.cross_compile_config = none := by
    have hg := gbt_config env se s
    rw [hbt] at hg
    rw [← hcfg]
    exact hg
  constructor
  · simp only [get_swiftpm_options, hbt, hh, hc, hne, hnm, hand, if_false, ite_false,
      if_true, ite_true, Bool.false_eq_true]
    exact ⟨_, rfl, List.suffix_append _ _⟩
  · have hg := gbt_trace env se s
    rw [hbt] at hg
    exact hg

/-- Witness for C6's amended theorem at the concrete configuration of the
    counterexample. -/
theorem C6_amended_destination_none_appended_witness :
    (∃ opts, get_swiftpm_options (linuxEnv tiX "/bin-path") "/tc/bin/swift" ⟨argsC6, []⟩ =
        (.ok opts,
         ⟨(⟨{ argsC6 with target_info := some tiX },
             [.spawn (tiCmd "/tc/bin/swift")]⟩ : St).args,
          (⟨{ argsC6 with target_info := some tiX },
             [.spawn (tiCmd "/tc/bin/swift")]⟩ : St).trace ++
            [.print ("Cross-compiling for " ++ "android-aarch64")]⟩) ∧
      [some "--destination", none] <:+ opts) ∧
    (⟨{ argsC6 with target_info := some tiX },
       [.spawn (tiCmd "/tc/bin/swift")]⟩ : St).trace =
      (⟨argsC6, []⟩ : St).trace ++ [.spawn (tiCmd "/tc/bin/swift")] :=
  C6_amended_destination_none_appended (linuxEnv tiX "/bin-path") "/tc/bin/swift"
    ⟨argsC6, []⟩ _ "android-aarch64" "x86_64-unknown-linux-gnu" rfl (by decide)
    (by decide) (by decide) rfl rfl

-- ---------------------------------------------------------------------------
-- Absoluteness facts about the path model, for claim C8

theorem data_append (s t : String) : (s ++ t).data = s.data ++ t.data := by
  cases s
  cases t
  rfl

theorem isAbs_append (s t : String) (h : isAbs s = true) : isAbs (s ++ t) = true := by
  unfold isAbs at *
  rw [data_append]
  cases hd : s.data with
  | nil => rw [hd] at h; simp at h
  | cons c cs =>
    rw [hd] at h
    simpa using h

theorem isAbs_join (a b : String) (h : isAbs a = true) :
    isAbs (os_path_join a b) = true := by
  unfold os_path_join
  split_ifs with hb ha
  · exact hb
  · exact isAbs_append a b h
  · exact isAbs_append _ _ (isAbs_append a "/" h)

theorem isAbs_normpath (p : String) (h : isAbs p = true) :
    isAbs (normpath p) = true := by
  simp only [normpath, h, if_true, ite_true]
  exact isAbs_append "/" _ rfl

theorem isAbs_abspath (cwd p : String) (h : isAbs cwd = true) :
    isAbs (abspath cwd p) = true :=
  isAbs_normpath _ (isAbs_join cwd p h)

-- ---------------------------------------------------------------------------

/-- The raw command line of C8's refutation: a package path that passes
    through a symbolic link. -/
def rawC8 : RawArgs :=
  { action := "build", package_path := "/a/c", toolchain := "/tc", ninja_bin := none,
    build_path := "/b", configuration := "debug", no_local_deps := false,
    sanitize := none, sanitize_all := false, no_clean := false, verbose := false,
    cross_compile_host := none, cross_compile_config := none, skip_long_tests := false,
    install_prefixes := none }

/-- The file system of C8's refutation: `/a` is a symbolic link to `/b`. -/
def fsC8 : Fs := fun l => if l = ["a"] then some ["b"] else none

/-- Claim C8 as stated is false: `parse_args` canonicalises with
    `os.path.abspath`, which does not resolve symbolic links.  On a file
    system where `/a` is a symlink to `/b`, the parsed package path stays
    `/a/c` while the spec's canonical (absolute, symlink-resolved) form is
    `/b/c`. -/
theorem C8_counterexample_symlink_not_resolved :
    parse_args (linuxEnv tiX "/bin-path") rawC8 =
      .ok (plainArgs "build" "/a/c" "/b" "/tc" "debug") ∧
    canonicalize_spec fsC8 "/" "/a/c" = "/b/c" ∧
    (plainArgs "build" "/a/c" "/b" "/tc" "debug").package_path ≠
      canonicalize_spec fsC8 "/" "/a/c" := by
  exact ⟨rfl, by decide, by decide⟩

/-- Claim C8 amended: the package path, build-output path and toolchain path
    are canonicalised with `os.path.abspath` at parse time — made absolute
    (relative to the process working directory) and textually normalised —
    before any downstream use; symbolic links are not resolved. -/
theorem C8_amended_abspath_at_parse_time (env : SysEnv) (raw : RawArgs) (a : Args)
    (hcwd : isAbs env.cwd = true) (hok : parse_args env raw = .ok a) :
    a.package_path = abspath env.cwd raw.package_path ∧
    a.build_path = abspath env.cwd raw.build_path ∧
    a.toolchain = abspath env.cwd raw.toolchain ∧
    isAbs a.package_path = true ∧ isAbs a.build_path = true ∧
    isAbs a.toolchain = true := by
  unfold parse_args at hok
  split at hok
  · exact absurd hok (by simp)
  · have ha := Except.ok.inj hok
    subst ha
    exact ⟨rfl, rfl, rfl, isAbs_abspath _ _ hcwd, isAbs_abspath _ _ hcwd,
      isAbs_abspath _ _ hcwd⟩

/-- Witness for C8's amended theorem at a concrete command line. -/
theorem C8_amended_abspath_at_parse_time_witness :
    (plainArgs "build" "/a/c" "/b" "/tc" "debug").package_path =
        abspath "/" rawC8.package_path ∧
    (plainArgs "build" "/a/c" "/b" "/tc" "debug").build_path =
        abspath "/" rawC8.build_path ∧
    (plainArgs "build" "/a/c" "/b" "/tc" "debug").toolchain =
        abspath "/" rawC8.toolchain ∧
    isAbs (plainArgs "build" "/a/c" "/b" "/tc" "debug").package_path = true ∧
    isAbs (plainArgs "build" "/a/c" "/b" "/tc" "debug").build_path = true ∧
    isAbs (plainArgs "build" "/a/c" "/b" "/tc" "debug").toolchain = true :=
  C8_amended_abspath_at_parse_time (linuxEnv tiX "/bin-path") rawC8
    (plainArgs "build" "/a/c" "/b" "/tc" "debug") rfl (by exact rfl)

-- ---------------------------------------------------------------------------

/-- Recognises the target-introspection spawn event for counting. -/
def isTiSpawn (se : String) (e : Ev) : Bool :=
  decide (e = .spawn (tiCmd se))

/-- Claim C9 as stated is false: `get_build_target` stores the parsed target
    info on the configuration record but never reads it back, so a repeated
    option-assembly call re-invokes the introspection subprocess.  At a
    concrete configuration, after the first `get_swiftpm_options` call the
    record already carries the target info, yet running a second call on the
    resulting state leaves two introspection spawns in the trace instead of
    the one the memoization claim implies. -/
theorem C9_counterexample_reinvocation :
    (get_swiftpm_options (linuxEnv tiX "/bin-path") "/tc/bin/swift"
        ⟨plainArgs "build" "/pkg" "/b" "/tc" "debug", []⟩).2.args.target_info =
      some tiX ∧
    ((get_swiftpm_options (linuxEnv tiX "/bin-path") "/tc/bin/swift"
        (get_swiftpm_options (linuxEnv tiX "/bin-path") "/tc/bin/swift"
          ⟨plainArgs "build" "/pkg" "/b" "/tc" "debug", []⟩).2).2.trace.countP
      (isTiSpawn "/tc/bin/swift")) = 2 := by
  exact ⟨rfl, by decide⟩

/-- Claim C9 amended: there is no memoization read — every option-assembly
    call spawns the introspection subprocess exactly once more (whatever the
    cross-compilation outcome), and (re)stores the parsed target info onto
    the configuration record. -/
theorem C9_amended_reinvokes_per_call (env : SysEnv) (se : String) (s : St)
    (ti : TargetInfo) (hti : env.targetInfo = some ti) :
    (get_swiftpm_options env se s).2.trace.countP (isTiSpawn se) =
      s.trace.countP (isTiSpawn se) + 1 ∧
    (get_swiftpm_options env se s).2.args.target_info = some ti := by
  have hg := gbt_some env se s ti hti
  rcases hch : s.args.cross_compile_host with _ | h
  · simp only [get_swiftpm_options, hg, hch]
    constructor
    · simp [List.countP_append, List.countP_cons, isTiSpawn]
    · trivial
  · simp only [get_swiftpm_options, hg, hch]
    split_ifs <;> constructor <;>
      simp [List.countP_append, List.countP_cons, isTiSpawn]

/-- Witness for C9's amended theorem at a concrete configuration. -/
theorem C9_amended_reinvokes_per_call_witness :
    (get_swiftpm_options (linuxEnv tiX "/bin-path") "/tc/bin/swift"
        ⟨plainArgs "build" "/pkg" "/b" "/tc" "debug", []⟩).2.trace.countP
        (isTiSpawn "/tc/bin/swift") =
      (⟨plainArgs "build" "/pkg" "/b" "/tc" "debug", []⟩ : St).trace.countP
        (isTiSpawn "/tc/bin/swift") + 1 ∧
    (get_swiftpm_options (linuxEnv tiX "/bin-path") "/tc/bin/swift"
        ⟨plainArgs "build" "/pkg" "/b" "/tc" "debug", []⟩).2.args.target_info =
      some tiX :=
  C9_amended_reinvokes_per_call (linuxEnv tiX "/bin-path") "/tc/bin/swift"
    ⟨plainArgs "build" "/pkg" "/b" "/tc" "debug", []⟩ tiX rfl

end BSH
